import Mathlib

/-!
Verification of the bounded-integer interval calculator
(`src/skills/cairo-coding/bounded_int_calc.py`).

The Python source is shallowly embedded below: each `calc_*` function and
each `generate_*_impl` renderer is translated into a Lean definition over
`Int` (Python integers are arbitrary precision, so `Int` is exact).
Python floor division `//` is `Int.fdiv`.  The fallible paths of the
division operation — the two explicit `sys.exit(1)` precondition checks
and the implicit `ZeroDivisionError` that `a_lo // b_hi` raises when
`b_hi = 0` — are modelled with `Except DivError`.  Warnings printed to
stderr by `validate_felt252` are modelled as an `Option String` return
value, collected into a list by the renderers.
-/

namespace BoundedIntCalc

/-- felt252 prime (for validation), line 20 of the source. -/
def FELT252_PRIME : Int :=
  0x800000000000011000000000000000000000000000000000000000000000001

/-- Embedding of `validate_felt252`: returns the warning message emitted to
stderr, or `none` when no warning is emitted.  The function never fails. -/
def validate_felt252 (value : Int) (name : String) : Option String :=
  if value < 0 then
    if FELT252_PRIME ≤ |value| then
      some ("WARNING: " ++ name ++ " = " ++ toString value ++ " exceeds felt252 range!")
    else
      none
  else if FELT252_PRIME ≤ value then
    some ("WARNING: " ++ name ++ " = " ++ toString value ++ " exceeds felt252 range!")
  else
    none

/-- Embedding of `format_bound` (both branches of the Python source return
`str(value)`). -/
def format_bound (value : Int) : String :=
  if value < 0 then toString value else toString value

/-- Embedding of `calc_add`: `[a_lo + b_lo, a_hi + b_hi]`. -/
def calc_add (a_lo a_hi b_lo b_hi : Int) : Int × Int :=
  (a_lo + b_lo, a_hi + b_hi)

/-- Embedding of `calc_sub`: `[a_lo - b_hi, a_hi - b_lo]`. -/
def calc_sub (a_lo a_hi b_lo b_hi : Int) : Int × Int :=
  (a_lo - b_hi, a_hi - b_lo)

/-- Embedding of `calc_mul`: min and max of the four corner products
(Python computes `min(corners)` and `max(corners)` over the four-element
list, which is the left-nested fold written out here). -/
def calc_mul (a_lo a_hi b_lo b_hi : Int) : Int × Int :=
  (min (min (min (a_lo * b_lo) (a_lo * b_hi)) (a_hi * b_lo)) (a_hi * b_hi),
   max (max (max (a_lo * b_lo) (a_lo * b_hi)) (a_hi * b_lo)) (a_hi * b_hi))

/-- The ways `calc_div` can terminate the process: the two explicit
precondition checks (`sys.exit(1)`), and the uncaught `ZeroDivisionError`
raised by `a_lo // b_hi` when `b_hi = 0` (the second division `a_hi // b_lo`
cannot raise, since the first check already guarantees `b_lo > 0`). -/
inductive DivError where
  | divisorLowerNonpositive
  | dividendLowerNegative
  | divisionByZero
deriving DecidableEq

/-- Embedding of `calc_div`.  Quotient `[a_lo // b_hi, a_hi // b_lo]`,
remainder `[0, b_hi - 1]`, guarded by the two precondition checks of the
source; the `divisionByZero` branch models the Python `ZeroDivisionError`
at `a_lo // b_hi` (the source itself has no such check). -/
def calc_div (a_lo a_hi b_lo b_hi : Int) :
    Except DivError ((Int × Int) × (Int × Int)) :=
  if b_lo ≤ 0 then
    Except.error DivError.divisorLowerNonpositive
  else if a_lo < 0 then
    Except.error DivError.dividendLowerNegative
  else if b_hi = 0 then
    Except.error DivError.divisionByZero
  else
    Except.ok ((Int.fdiv a_lo b_hi, Int.fdiv a_hi b_lo), (0, b_hi - 1))

/-- Embedding of `generate_add_impl`: the list of warnings printed to
stderr, paired with the rendered declaration text. -/
def generate_add_impl (a_lo a_hi b_lo b_hi : Int) (name : String) :
    List String × String :=
  let r := calc_add a_lo a_hi b_lo b_hi
  ((validate_felt252 r.1 "Result min").toList ++ (validate_felt252 r.2 "Result max").toList,
   "impl " ++ name ++ " of AddHelper<BoundedInt<" ++ format_bound a_lo ++ ", "
     ++ format_bound a_hi ++ ">, BoundedInt<" ++ format_bound b_lo ++ ", "
     ++ format_bound b_hi ++ ">> \x7b\n    type Result = BoundedInt<"
     ++ format_bound r.1 ++ ", " ++ format_bound r.2 ++ ">;\n\x7d")

/-- Embedding of `generate_sub_impl`. -/
def generate_sub_impl (a_lo a_hi b_lo b_hi : Int) (name : String) :
    List String × String :=
  let r := calc_sub a_lo a_hi b_lo b_hi
  ((validate_felt252 r.1 "Result min").toList ++ (validate_felt252 r.2 "Result max").toList,
   "impl " ++ name ++ " of SubHelper<BoundedInt<" ++ format_bound a_lo ++ ", "
     ++ format_bound a_hi ++ ">, BoundedInt<" ++ format_bound b_lo ++ ", "
     ++ format_bound b_hi ++ ">> \x7b\n    type Result = BoundedInt<"
     ++ format_bound r.1 ++ ", " ++ format_bound r.2 ++ ">;\n\x7d")

/-- Embedding of `generate_mul_impl`. -/
def generate_mul_impl (a_lo a_hi b_lo b_hi : Int) (name : String) :
    List String × String :=
  let r := calc_mul a_lo a_hi b_lo b_hi
  ((validate_felt252 r.1 "Result min").toList ++ (validate_felt252 r.2 "Result max").toList,
   "impl " ++ name ++ " of MulHelper<BoundedInt<" ++ format_bound a_lo ++ ", "
     ++ format_bound a_hi ++ ">, BoundedInt<" ++ format_bound b_lo ++ ", "
     ++ format_bound b_hi ++ ">> \x7b\n    type Result = BoundedInt<"
     ++ format_bound r.1 ++ ", " ++ format_bound r.2 ++ ">;\n\x7d")

/-- Embedding of `generate_div_impl`: fails exactly when `calc_div` fails;
otherwise the four bounds are validated and the declaration is rendered. -/
def generate_div_impl (a_lo a_hi b_lo b_hi : Int) (name : String) :
    Except DivError (List String × String) :=
  match calc_div a_lo a_hi b_lo b_hi with
  | Except.error e => Except.error e
  | Except.ok (q, r) =>
    Except.ok
      ((validate_felt252 q.1 "Quotient min").toList
         ++ (validate_felt252 q.2 "Quotient max").toList
         ++ (validate_felt252 r.1 "Remainder min").toList
         ++ (validate_felt252 r.2 "Remainder max").toList,
       "impl " ++ name ++ " of DivRemHelper<BoundedInt<" ++ format_bound a_lo ++ ", "
         ++ format_bound a_hi ++ ">, BoundedInt<" ++ format_bound b_lo ++ ", "
         ++ format_bound b_hi ++ ">> \x7b\n    type DivT = BoundedInt<"
         ++ format_bound q.1 ++ ", " ++ format_bound q.2
         ++ ">;\n    type RemT = BoundedInt<" ++ format_bound r.1 ++ ", "
         ++ format_bound r.2 ++ ">;\n\x7d")

/-- The four subcommands dispatched by `main`. -/
inductive Operation where
  | add
  | sub
  | mul
  | div
deriving DecidableEq

/-- Embedding of the dispatch in `main`: add, sub and mul always succeed;
div propagates the failure of `generate_div_impl`. -/
def runOp (op : Operation) (a_lo a_hi b_lo b_hi : Int) (name : String) :
    Except DivError (List String × String) :=
  match op with
  | Operation.add => Except.ok (generate_add_impl a_lo a_hi b_lo b_hi name)
  | Operation.sub => Except.ok (generate_sub_impl a_lo a_hi b_lo b_hi name)
  | Operation.mul => Except.ok (generate_mul_impl a_lo a_hi b_lo b_hi name)
  | Operation.div => generate_div_impl a_lo a_hi b_lo b_hi name

/-- Interval negation as used by the cross-check identity in the spec:
`Neg(B) = (-B.hi, -B.lo)`.  This definition follows the words of the spec;
it has no counterpart in the source. -/
def neg_interval (b : Int × Int) : Int × Int :=
  (-b.2, -b.1)

/-- Helper: on interval inputs satisfying the two precondition checks,
`calc_div` takes the success branch and returns the quotient and remainder
intervals computed by the source. -/
theorem calc_div_ok (a_lo a_hi b_lo b_hi : Int) (hb : b_lo ≤ b_hi)
    (hpos : 0 < b_lo) (hnn : 0 ≤ a_lo) :
    calc_div a_lo a_hi b_lo b_hi =
      Except.ok ((Int.fdiv a_lo b_hi, Int.fdiv a_hi b_lo), (0, b_hi - 1)) := by
  unfold calc_div
  rw [if_neg (by omega), if_neg (by omega), if_neg (by omega)]

/-- Helper: monotonicity of the quotient bounds — the lower quotient bound
never exceeds the upper quotient bound. -/
theorem fdiv_quot_le (a_lo a_hi b_lo b_hi : Int) (ha : a_lo ≤ a_hi) (hb : b_lo ≤ b_hi)
    (hpos : 0 < b_lo) (hnn : 0 ≤ a_lo) :
    Int.fdiv a_lo b_hi ≤ Int.fdiv a_hi b_lo := by
  have hbh : 0 < b_hi := lt_of_lt_of_le hpos hb
  rw [Int.fdiv_eq_ediv _ (le_of_lt hbh), Int.fdiv_eq_ediv _ (le_of_lt hpos)]
  calc a_lo / b_hi ≤ a_hi / b_hi := Int.ediv_le_ediv hbh ha
    _ ≤ a_hi / b_lo := by
        rw [Int.le_ediv_iff_mul_le hpos]
        calc a_hi / b_hi * b_lo ≤ a_hi / b_hi * b_hi :=
              mul_le_mul_of_nonneg_left hb (Int.ediv_nonneg (le_trans hnn ha) (le_of_lt hbh))
          _ ≤ a_hi := Int.ediv_mul_le _ (ne_of_gt hbh)

/-- C1: for every pair of intervals `(a_lo, a_hi)` and `(b_lo, b_hi)` with
`b_lo > 0` and `a_lo ≥ 0`, the division operation returns the quotient
interval `(⌊a_lo / b_hi⌋, ⌊a_hi / b_lo⌋)` and the remainder interval
`(0, b_hi - 1)`. -/
theorem calc_div_quotient_remainder (a_lo a_hi b_lo b_hi : Int)
    (ha : a_lo ≤ a_hi) (hb : b_lo ≤ b_hi) (hpos : 0 < b_lo) (hnn : 0 ≤ a_lo) :
    calc_div a_lo a_hi b_lo b_hi =
      Except.ok ((Int.fdiv a_lo b_hi, Int.fdiv a_hi b_lo), (0, b_hi - 1)) :=
  calc_div_ok a_lo a_hi b_lo b_hi hb hpos hnn

/-- Witness for C1: the concrete division `[128, 255] / [3, 8]` from the
spec scenarios yields quotient `[16, 85]` and remainder `[0, 7]`. -/
theorem calc_div_quotient_remainder_witness :
    calc_div 128 255 3 8 = Except.ok ((16, 85), (0, 7)) := by
  rw [calc_div_quotient_remainder 128 255 3 8 (by decide) (by decide) (by decide) (by decide)]
  rfl

/-- C2: for every pair of intervals, the multiplication operation returns
the interval whose lower bound is the minimum and whose upper bound is the
maximum of the four corner products — each bound is a member of the corner
set and is below (resp. above) every corner. -/
theorem calc_mul_is_corner_min_max (a_lo a_hi b_lo b_hi : Int) :
    ((calc_mul a_lo a_hi b_lo b_hi).1 ∈
        [a_lo * b_lo, a_lo * b_hi, a_hi * b_lo, a_hi * b_hi] ∧
      (calc_mul a_lo a_hi b_lo b_hi).1 ≤ a_lo * b_lo ∧
      (calc_mul a_lo a_hi b_lo b_hi).1 ≤ a_lo * b_hi ∧
      (calc_mul a_lo a_hi b_lo b_hi).1 ≤ a_hi * b_lo ∧
      (calc_mul a_lo a_hi b_lo b_hi).1 ≤ a_hi * b_hi) ∧
    ((calc_mul a_lo a_hi b_lo b_hi).2 ∈
        [a_lo * b_lo, a_lo * b_hi, a_hi * b_lo, a_hi * b_hi] ∧
      a_lo * b_lo ≤ (calc_mul a_lo a_hi b_lo b_hi).2 ∧
      a_lo * b_hi ≤ (calc_mul a_lo a_hi b_lo b_hi).2 ∧
      a_hi * b_lo ≤ (calc_mul a_lo a_hi b_lo b_hi).2 ∧
      a_hi * b_hi ≤ (calc_mul a_lo a_hi b_lo b_hi).2) := by
  simp only [calc_mul, List.mem_cons, List.not_mem_nil, or_false]
  generalize a_lo * b_lo = c1
  generalize a_lo * b_hi = c2
  generalize a_hi * b_lo = c3
  generalize a_hi * b_hi = c4
  omega

/-- C3 counterexample: the claim states
`Mul([0,12288],[0,12288]) = [0,151011072]`, but the code computes the upper
bound `12288 * 12288 = 150994944`, so the claimed equality is false. -/
theorem calc_mul_12288_claim_refuted :
    ¬ (calc_mul 0 12288 0 12288 = (0, 151011072)) := by decide

/-- C3 (amended): the multiplication operation applied to the intervals
`[0, 12288]` and `[0, 12288]` returns the interval `[0, 150994944]`. -/
theorem calc_mul_12288_result :
    calc_mul 0 12288 0 12288 = (0, 150994944) := by decide

/-- C4: on interval inputs, the division operation fails fatally (no
declaration is produced) exactly when the divisor lower bound is
non-positive or the dividend lower bound is negative, and the add, sub and
mul operations never fail fatally. -/
theorem div_fatal_iff (a_lo a_hi b_lo b_hi : Int) (name : String)
    (ha : a_lo ≤ a_hi) (hb : b_lo ≤ b_hi) :
    ((runOp Operation.div a_lo a_hi b_lo b_hi name).toOption = none ↔
        b_lo ≤ 0 ∨ a_lo < 0) ∧
    (runOp Operation.add a_lo a_hi b_lo b_hi name).toOption ≠ none ∧
    (runOp Operation.sub a_lo a_hi b_lo b_hi name).toOption ≠ none ∧
    (runOp Operation.mul a_lo a_hi b_lo b_hi name).toOption ≠ none := by
  refine ⟨?_, by simp [runOp, Except.toOption], by simp [runOp, Except.toOption],
    by simp [runOp, Except.toOption]⟩
  unfold runOp generate_div_impl calc_div
  split_ifs with h1 h2 h3 <;> simp [Except.toOption] <;> omega

/-- Witness for C4: with divisor interval `[0, 5]` (lower bound zero) the
division fails fatally while add, sub and mul still produce output. -/
theorem div_fatal_iff_witness :
    ((runOp Operation.div 0 10 0 5 "DivRemImpl").toOption = none ↔
        (0:Int) ≤ 0 ∨ (0:Int) < 0) ∧
    (runOp Operation.add 0 10 0 5 "DivRemImpl").toOption ≠ none ∧
    (runOp Operation.sub 0 10 0 5 "DivRemImpl").toOption ≠ none ∧
    (runOp Operation.mul 0 10 0 5 "DivRemImpl").toOption ≠ none :=
  div_fatal_iff 0 10 0 5 "DivRemImpl" (by decide) (by decide)

/-- C5: the validator emits a warning exactly when the value lies outside
`[-(FELT252_PRIME - 1), FELT252_PRIME - 1]`; it never fails, and the add
generator always produces its declaration together with the warnings (a
warning never suppresses the rendered declaration). -/
theorem validate_felt252_warns_iff (v : Int) (nm : String) :
    ((validate_felt252 v nm).isSome = true ↔
        v < -(FELT252_PRIME - 1) ∨ FELT252_PRIME - 1 < v) ∧
    ∀ a_lo a_hi b_lo b_hi : Int, ∀ dn : String,
      (runOp Operation.add a_lo a_hi b_lo b_hi dn).toOption =
        some (generate_add_impl a_lo a_hi b_lo b_hi dn) := by
  have hP : (0:Int) < FELT252_PRIME := by decide
  refine ⟨?_, fun _ _ _ _ _ => rfl⟩
  unfold validate_felt252
  split_ifs with h1 h2 h3
  · rw [abs_of_neg h1] at h2
    simp only [Option.isSome_some, true_iff]
    omega
  · rw [abs_of_neg h1] at h2
    simp only [Option.isSome_none, Bool.false_eq_true, false_iff, not_or, not_lt]
    omega
  · simp only [Option.isSome_some, true_iff]
    omega
  · simp only [Option.isSome_none, Bool.false_eq_true, false_iff, not_or, not_lt]
    omega

/-- C6: on interval inputs (`lo ≤ hi` on both operands), every result
interval of add, sub and mul satisfies `lo ≤ hi`; and when the division
preconditions also hold, the quotient and remainder intervals both satisfy
`lo ≤ hi`. -/
theorem results_lo_le_hi (a_lo a_hi b_lo b_hi : Int)
    (ha : a_lo ≤ a_hi) (hb : b_lo ≤ b_hi) :
    (calc_add a_lo a_hi b_lo b_hi).1 ≤ (calc_add a_lo a_hi b_lo b_hi).2 ∧
    (calc_sub a_lo a_hi b_lo b_hi).1 ≤ (calc_sub a_lo a_hi b_lo b_hi).2 ∧
    (calc_mul a_lo a_hi b_lo b_hi).1 ≤ (calc_mul a_lo a_hi b_lo b_hi).2 ∧
    (0 < b_lo → 0 ≤ a_lo →
      calc_div a_lo a_hi b_lo b_hi =
        Except.ok ((Int.fdiv a_lo b_hi, Int.fdiv a_hi b_lo), (0, b_hi - 1)) ∧
      Int.fdiv a_lo b_hi ≤ Int.fdiv a_hi b_lo ∧ (0:Int) ≤ b_hi - 1) := by
  refine ⟨by simp only [calc_add]; omega, by simp only [calc_sub]; omega, ?_, ?_⟩
  · simp only [calc_mul]
    generalize a_lo * b_lo = c1
    generalize a_lo * b_hi = c2
    generalize a_hi * b_lo = c3
    generalize a_hi * b_hi = c4
    omega
  · intro hpos hnn
    exact ⟨calc_div_ok a_lo a_hi b_lo b_hi hb hpos hnn,
      fdiv_quot_le a_lo a_hi b_lo b_hi ha hb hpos hnn, by omega⟩

/-- Witness for C6: all four operations on `[128, 255]` and `[3, 8]`
produce intervals with `lo ≤ hi`. -/
theorem results_lo_le_hi_witness :
    (calc_add 128 255 3 8).1 ≤ (calc_add 128 255 3 8).2 ∧
    (calc_sub 128 255 3 8).1 ≤ (calc_sub 128 255 3 8).2 ∧
    (calc_mul 128 255 3 8).1 ≤ (calc_mul 128 255 3 8).2 ∧
    ((0:Int) < 3 → (0:Int) ≤ 128 →
      calc_div 128 255 3 8 =
        Except.ok ((Int.fdiv 128 8, Int.fdiv 255 3), (0, 8 - 1)) ∧
      Int.fdiv 128 8 ≤ Int.fdiv 255 3 ∧ (0:Int) ≤ 8 - 1) :=
  results_lo_le_hi 128 255 3 8 (by decide) (by decide)

/-- C7: for every pair of intervals, the addition operation returns the
interval `(a_lo + b_lo, a_hi + b_hi)`. -/
theorem calc_add_formula (a_lo a_hi b_lo b_hi : Int) :
    calc_add a_lo a_hi b_lo b_hi = (a_lo + b_lo, a_hi + b_hi) := rfl

/-- C8: for every pair of intervals, the subtraction operation returns the
interval `(a_lo - b_hi, a_hi - b_lo)`. -/
theorem calc_sub_formula (a_lo a_hi b_lo b_hi : Int) :
    calc_sub a_lo a_hi b_lo b_hi = (a_lo - b_hi, a_hi - b_lo) := rfl

/-- C9: for every pair of intervals `A` and `B`, `Add(A, B)` equals
`Sub(A, Neg(B))` where `Neg(B) = (-B.hi, -B.lo)`. -/
theorem add_eq_sub_neg (a_lo a_hi b_lo b_hi : Int) :
    calc_add a_lo a_hi b_lo b_hi =
      calc_sub a_lo a_hi (neg_interval (b_lo, b_hi)).1 (neg_interval (b_lo, b_hi)).2 := by
  simp only [calc_add, calc_sub, neg_interval, Prod.mk.injEq]
  omega

/-- C10: under `b_lo ≤ b_hi`, `0 < b_lo` and `0 ≤ a_lo`, both divisors used
inside the division operation are nonzero, so the division-by-zero branch
of `calc_div` (which models the only place the source itself does not
guard, since it checks `b_lo > 0` but never that `b_hi ≥ b_lo`) is
unreachable. -/
theorem calc_div_no_division_by_zero (a_lo a_hi b_lo b_hi : Int)
    (hb : b_lo ≤ b_hi) (hpos : 0 < b_lo) (hnn : 0 ≤ a_lo) :
    b_hi ≠ 0 ∧ b_lo ≠ 0 ∧
      calc_div a_lo a_hi b_lo b_hi ≠ Except.error DivError.divisionByZero := by
  refine ⟨by omega, by omega, ?_⟩
  rw [calc_div_ok a_lo a_hi b_lo b_hi hb hpos hnn]
  simp

/-- Witness for C10: the division `[128, 255] / [3, 8]` divides by `8` and
`3`, both nonzero, and does not reach the division-by-zero branch. -/
theorem calc_div_no_division_by_zero_witness :
    (8:Int) ≠ 0 ∧ (3:Int) ≠ 0 ∧
      calc_div 128 255 3 8 ≠ Except.error DivError.divisionByZero :=
  calc_div_no_division_by_zero 128 255 3 8 (by decide) (by decide) (by decide)

end BoundedIntCalc
